import Mathlib

/-!
# Verification of the Personal-chatbot RAG pipeline

Shallow embedding of the chunking + retrieval pipeline of the
`Personal-chatbot` repository (`backend/app/utils/text_splitter.py`,
`backend/app/core/embeddings.py`, `backend/app/core/retriever.py`,
`backend/app/api/query.py`), together with proofs of the spec's claims
about it.

Python strings are modelled as `List Char`, Python non-negative ints as
`Nat`, floating point distances as `ℚ`, and fallible operations as
`Option`.  External collaborators (the embedding model, the vector
store, the language model) are passed in as oracle functions, exactly
at the boundary where the source code calls them.
-/

namespace Chatbot

/-! ## Text splitter (`backend/app/utils/text_splitter.py`) -/

/-- The whitespace characters stripped by Python's `str.strip()`:
space, tab, newline, carriage return, vertical tab, form feed. -/
def pyIsSpace (c : Char) : Bool :=
  c = ' ' || c = '\t' || c = '\n' || c = '\r' || c = '\x0b' || c = '\x0c'

/-- Python `s.strip()` on a list of characters. -/
def pyStrip (l : List Char) : List Char :=
  ((l.dropWhile pyIsSpace).reverse.dropWhile pyIsSpace).reverse

/-- Python slice `text[start:end]` (for `0 ≤ start ≤ end`). -/
def pySlice (l : List Char) (s e : Nat) : List Char :=
  (l.drop s).take (e - s)

/-- `re.sub(r' +', ' ', text)`: collapse runs of spaces to one space.
The boolean flag records whether the previous character was a space. -/
def collapseSpacesAux : List Char → Bool → List Char
  | [], _ => []
  | c :: rest, prev =>
    if c = ' ' then
      if prev then collapseSpacesAux rest true
      else ' ' :: collapseSpacesAux rest true
    else c :: collapseSpacesAux rest false

def collapseSpaces (l : List Char) : List Char :=
  collapseSpacesAux l false

/-- `re.sub(r'\n{3,}', '\n\n', text)`: a maximal run of `k ≥ 3` newlines
becomes exactly two.  `pending` counts the newlines of the current run. -/
def collapseNewlinesAux : List Char → Nat → List Char
  | [], pending => List.replicate (min pending 2) '\n'
  | c :: rest, pending =>
    if c = '\n' then collapseNewlinesAux rest (pending + 1)
    else List.replicate (min pending 2) '\n' ++ c :: collapseNewlinesAux rest 0

def collapseNewlines (l : List Char) : List Char :=
  collapseNewlinesAux l 0

/-- `TextSplitter._prepare_text`: collapse spaces, collapse newline runs,
then strip. -/
def prepareText (l : List Char) : List Char :=
  pyStrip (collapseNewlines (collapseSpaces l))

/-- One chunk record as produced by `TextSplitter.split_text`.
(`created_at`, a wall-clock timestamp, is omitted from the model.) -/
structure Chunk where
  text : List Char
  chunk_index : Nat
  source_file : String
  chunk_size : Nat
deriving Repr, DecidableEq

/-- The `while start < text_length` loop body of
`TextSplitter._create_chunks`, with explicit fuel: the Python loop can
fail to make progress for degenerate configurations, so the model
returns `none` when the fuel runs out (the real loop would still be
running). -/
def createChunksGo (cs co : Nat) (text : List Char) :
    Nat → Nat → Option (List (List Char))
  | 0, _ => none
  | fuel + 1, start =>
    if start < text.length then
      let e := min (start + cs) text.length
      let chunk := pyStrip (pySlice text start e)
      let tail : Option (List (List Char)) :=
        if text.length ≤ e then some []
        else
          let s1 := e - co
          let s2 := if s1 ≤ e - cs then e else s1
          createChunksGo cs co text fuel s2
      match tail with
      | none => none
      | some rest => some (if chunk = [] then rest else chunk :: rest)
    else some []

/-- `TextSplitter._create_chunks`: one chunk when the text fits, else
the overlapping-window loop.  `text.length + 1` iterations always
suffice when `chunk_overlap < chunk_size` (proved below). -/
def createChunks (cs co : Nat) (text : List Char) :
    Option (List (List Char)) :=
  if text.length ≤ cs then some [text]
  else createChunksGo cs co text (text.length + 1) 0

/-- `TextSplitter.split_text`: empty / whitespace-only input yields no
chunks; otherwise prepare the text, chunk it, and attach metadata in
emission order. -/
def splitText (cs co : Nat) (text : List Char) (source_file : String) :
    Option (List Chunk) :=
  if pyStrip text = [] then some []
  else
    match createChunks cs co (prepareText text) with
    | none => none
    | some chunks =>
        some (chunks.enum.map fun p =>
          { text := p.2
            chunk_index := p.1
            source_file := source_file
            chunk_size := p.2.length })

/-- The splitter's configuration. -/
structure TextSplitter where
  chunk_size : Nat
  chunk_overlap : Nat
deriving Repr, DecidableEq

/-- `TextSplitter.__init__`: raises `ValueError` (modelled as `none`)
when `chunk_overlap >= chunk_size`, otherwise returns the instance. -/
def mkTextSplitter (chunk_size chunk_overlap : Nat) : Option TextSplitter :=
  if chunk_overlap ≥ chunk_size then none
  else some ⟨chunk_size, chunk_overlap⟩

/-! ## Embedding gateway (`backend/app/core/embeddings.py`)

The external `genai.embed_content` call is modelled as an oracle
`o : Nat → Option Emb` giving the outcome of the attempt numbered `n`
(`none` = the call raised).  `time.sleep(2 ** attempt)` calls are
recorded in a trace of wait durations, returned alongside the result. -/

/-- An embedding vector. -/
abbrev Emb := List ℚ

/-- Python truthiness of a string: `not s` / `not s.strip()` both fail
exactly when the stripped string is empty. -/
def pyBlank (s : String) : Bool :=
  pyStrip s.toList = []

/-- The `for attempt in range(retry_count)` loop of
`EmbeddingGenerator.generate_embedding`: try the oracle; on success
return the vector; on failure sleep `2 ^ attempt` before the next
attempt, except after the last one, which returns `None`.  `remaining`
counts the attempts still available (`retry_count - attempt`), so the
test `attempt < retry_count - 1` becomes `0 < remaining` after
peeling one attempt off. -/
def embedAttempts (o : Nat → Option Emb) : Nat → Nat → Option Emb × List Nat
  | _, 0 => (none, [])
  | attempt, remaining + 1 =>
    match o attempt with
    | some v => (some v, [])
    | none =>
      if 0 < remaining then
        let r := embedAttempts o (attempt + 1) remaining
        (r.1, 2 ^ attempt :: r.2)
      else (none, [])

/-- `EmbeddingGenerator.generate_embedding` (document mode): rejects
blank text without calling the model, otherwise runs the retry loop
starting at attempt 0. -/
def generate_embedding (o : Nat → Option Emb) (text : String)
    (retry_count : Nat := 3) : Option Emb × List Nat :=
  if pyBlank text then (none, [])
  else embedAttempts o 0 retry_count

/-- `EmbeddingGenerator.generate_query_embedding` (query mode): rejects
blank text, otherwise makes a single call to the model; an exception is
reported to the caller as `None`.  (There is no retry loop here.) -/
def generate_query_embedding (o : Nat → Option Emb) (query : String) :
    Option Emb :=
  if pyBlank query then none
  else o 0

/-! ## Retrieval orchestrator (`backend/app/core/retriever.py`)

The collaborators are oracles: `embed` for
`EmbeddingGenerator.generate_query_embedding`, `searchO` for
`VectorStore.search` (already shaped by the facade into parallel
`documents` / `metadatas` / `distances` lists plus a `count`), and
`gen` for `LLMHandler.generate_rag_response`. -/

/-- The metadata stored with every chunk by `VectorStore.add_documents`
(`chunk_size` and `created_at` are not read by the retriever). -/
structure Meta where
  source_file : String
  chunk_index : Nat
deriving Repr, DecidableEq

/-- The dictionary returned by `VectorStore.search`. -/
structure SearchResults where
  documents : List String
  metadatas : List Meta
  distances : List ℚ
  count : Nat
deriving Repr

/-- The facade's shaping guarantee: `count` equals the number of
documents and the three lists are parallel (one metadata and one
distance per matched document). -/
def SearchResults.wf (sr : SearchResults) : Prop :=
  sr.count = sr.documents.length ∧
  sr.metadatas.length = sr.documents.length ∧
  sr.distances.length = sr.documents.length

/-- One `sources` entry of the retriever's result. -/
structure SourceInfo where
  chunk_text : String
  source_file : String
  chunk_index : Nat
  similarity_score : ℚ
deriving Repr, DecidableEq

/-- `RetrievalResult`: the dictionary returned by
`Retriever.retrieve_and_generate`. -/
structure RetrievalResult where
  success : Bool
  answer : Option String
  error : Option String
  sources : List SourceInfo
  chunks_used : Nat
deriving Repr, DecidableEq

/-- `top_k = top_k or self.top_k`: Python `or` falls through to the
default when the request value is absent (`None`) or falsy (`0`). -/
def resolveTopK (req : Option Nat) (dflt : Nat) : Nat :=
  match req with
  | none => dflt
  | some k => if k = 0 then dflt else k

/-- Source preview: `chunk[:100] + "..." if len(chunk) > 100 else chunk`. -/
def previewText (chunk : String) : String :=
  if chunk.length > 100 then chunk.take 100 ++ "..." else chunk

/-- Step 3 of the pipeline: one `SourceInfo` per
`zip(chunks, metadatas, distances)` triple (Python `zip` truncates to
the shortest list), with `similarity_score = 1 - distance`. -/
def mkSources (sr : SearchResults) : List SourceInfo :=
  (sr.documents.zip (sr.metadatas.zip sr.distances)).map fun t =>
    { chunk_text := previewText t.1
      source_file := t.2.1.source_file
      chunk_index := t.2.1.chunk_index
      similarity_score := 1 - t.2.2 }

/-- The fixed answer returned when the search finds nothing. -/
def noInfoAnswer : String :=
  "I don't have any information to answer that question. Please make sure you've uploaded relevant documents."

/-- Python truthiness of the generated answer: `if not answer` fires on
`None` and on the empty string. -/
def answerFalsy : Option String → Bool
  | none => true
  | some s => s = ""

/-- Python truthiness of the query embedding: `if not query_embedding`
fires on `None` and on an empty vector. -/
def embFalsy : Option Emb → Bool
  | none => true
  | some v => v = []

/-- `Retriever.retrieve_and_generate`, the blocking RAG pipeline. -/
def retrieve_and_generate
    (embed : String → Option Emb)
    (searchO : Emb → Nat → SearchResults)
    (gen : String → List String → Option String)
    (default_top_k : Nat)
    (query : String) (top_k : Option Nat) : RetrievalResult :=
  if pyBlank query then
    { success := false, answer := none, error := some "Empty query provided"
      sources := [], chunks_used := 0 }
  else
    let k := resolveTopK top_k default_top_k
    match embed query with
    | none =>
      { success := false, answer := none
        error := some "Failed to generate query embedding"
        sources := [], chunks_used := 0 }
    | some qe =>
      if qe = [] then
        { success := false, answer := none
          error := some "Failed to generate query embedding"
          sources := [], chunks_used := 0 }
      else
        let sr := searchO qe k
        if sr.count = 0 then
          { success := true, answer := some noInfoAnswer, error := none
            sources := [], chunks_used := 0 }
        else
          let sources := mkSources sr
          let answer := gen query sr.documents
          if answerFalsy answer then
            { success := false, answer := none
              error := some "Failed to generate response"
              sources := sources, chunks_used := sr.documents.length }
          else
            { success := true, answer := answer, error := none
              sources := sources, chunks_used := sr.documents.length }

/-- The validation `QueryRequest` (`backend/app/models/request.py`)
imposes on a request: `query` has `min_length=1`, and `top_k`, when
present, satisfies `ge=1, le=10` (an omitted field defaults to `5`). -/
def QueryRequest.validTopK : Option Nat → Bool
  | none => true
  | some k => 1 ≤ k && k ≤ 10

/-! ## Streaming orchestrator (`backend/app/api/query.py`)

`query_chatbot_stream` returns a `StreamingResponse` over
`retriever.retrieve_and_generate_stream(...)`. -/

/-- One server-sent event of the streaming response: a content token, the
single metadata event carrying the matched sources, or the `[DONE]`
end-of-stream marker. -/
inductive StreamEvent where
  | token (t : String)
  | sourcesEvent (s : List SourceInfo)
  | done
deriving Repr, DecidableEq

/-- Modelled from the spec: `Retriever.retrieve_and_generate_stream` is
called by `query_chatbot_stream` in `backend/app/api/query.py` but its
definition is absent from the repository sources, so it is modelled from
the spec's streaming contract: same pipeline as the blocking variant
(entry guard, query embedding, search, context assembly), then the
generation gateway's lazy token sequence is emitted as text events as
the tokens arrive, followed — after the final content token — by the
sources/metadata event, then the end-of-stream marker.  On the branches
whose streaming behaviour the spec does not spell out (blank query,
embedding failure, zero matches) the model returns `none`.
`genStream` is the token-incremental generation oracle
(query, context chunks ↦ finite token sequence). -/
def retrieve_and_generate_stream
    (embed : String → Option Emb)
    (searchO : Emb → Nat → SearchResults)
    (genStream : String → List String → List String)
    (default_top_k : Nat)
    (query : String) (top_k : Option Nat) : Option (List StreamEvent) :=
  if pyBlank query then none
  else
    let k := resolveTopK top_k default_top_k
    match embed query with
    | none => none
    | some qe =>
      if qe = [] then none
      else
        let sr := searchO qe k
        if sr.count = 0 then none
        else
          some ((genStream query sr.documents).map StreamEvent.token
                ++ [StreamEvent.sourcesEvent (mkSources sr), StreamEvent.done])

/-- `isMeta` recognises the sources/metadata event of a stream. -/
def StreamEvent.isMeta : StreamEvent → Bool
  | .sourcesEvent _ => true
  | _ => false

/-! ## Concrete fixtures used to instantiate the oracle parameters -/

/-- An embedding oracle whose external call raises on the first attempt
and would succeed on any later attempt. -/
def oFailFirst : Nat → Option Emb := fun n => if n = 0 then none else some [1]

/-- An embedding oracle that fails on attempts 0 and 1 and succeeds on
attempt 2. -/
def oSucceedThird : Nat → Option Emb := fun n => if n = 2 then some [1] else none

/-- A query-embedding collaborator that always succeeds. -/
def embC : String → Option Emb := fun _ => some [1]

/-- A one-match search result. -/
def srC : SearchResults :=
  { documents := ["I love guitar."]
    metadatas := [{ source_file := "about_me.txt", chunk_index := 0 }]
    distances := [(3 : ℚ) / 10]
    count := 1 }

/-- A vector-store collaborator returning one match. -/
def searchC : Emb → Nat → SearchResults := fun _ _ => srC

/-- A vector-store collaborator returning no matches. -/
def searchEmptyC : Emb → Nat → SearchResults :=
  fun _ _ => { documents := [], metadatas := [], distances := [], count := 0 }

/-- A generation collaborator that fails. -/
def genNoneC : String → List String → Option String := fun _ _ => none

/-- A generation collaborator that succeeds. -/
def genOkC : String → List String → Option String := fun _ _ => some "an answer"

/-- A token-incremental generation collaborator. -/
def tokensC : String → List String → List String := fun _ _ => ["Hel", "lo"]

/-! ## Helper lemmas -/

lemma length_dropWhile_le (p : Char → Bool) (l : List Char) :
    (l.dropWhile p).length ≤ l.length := by
  induction l with
  | nil => simp
  | cons a l ih =>
    rw [List.dropWhile_cons]
    by_cases h : p a
    · simp only [h, if_true]
      exact Nat.le_succ_of_le ih
    · simp [h]

lemma pyStrip_length_le (l : List Char) : (pyStrip l).length ≤ l.length := by
  unfold pyStrip
  calc ((l.dropWhile pyIsSpace).reverse.dropWhile pyIsSpace).reverse.length
      = ((l.dropWhile pyIsSpace).reverse.dropWhile pyIsSpace).length := by
        rw [List.length_reverse]
    _ ≤ (l.dropWhile pyIsSpace).reverse.length := length_dropWhile_le _ _
    _ = (l.dropWhile pyIsSpace).length := by rw [List.length_reverse]
    _ ≤ l.length := length_dropWhile_le _ _

lemma pySlice_length_le (l : List Char) (s e : Nat) :
    (pySlice l s e).length ≤ e - s := by
  unfold pySlice
  rw [List.length_take]
  exact min_le_left _ _

/-- The window loop always succeeds within `text.length - start < fuel`
iterations when `chunk_overlap < chunk_size`, and every emitted chunk
has length at most `chunk_size`. -/
lemma createChunksGo_total (cs co : Nat) (hco : co < cs) (text : List Char) :
    ∀ fuel start, text.length - start < fuel →
      ∃ l, createChunksGo cs co text fuel start = some l ∧
        ∀ c ∈ l, c.length ≤ cs := by
  intro fuel
  induction fuel with
  | zero => intro start h; omega
  | succ fuel ih =>
    intro start h
    rw [createChunksGo.eq_2]
    by_cases hs : start < text.length
    · rw [if_pos hs]
      dsimp only
      have hchunk : (pyStrip (pySlice text start ((start + cs) ⊓ text.length))).length ≤ cs := by
        calc (pyStrip (pySlice text start ((start + cs) ⊓ text.length))).length
            ≤ (pySlice text start ((start + cs) ⊓ text.length)).length :=
              pyStrip_length_le _
          _ ≤ (start + cs) ⊓ text.length - start := pySlice_length_le _ _ _
          _ ≤ cs := by
              have := min_le_left (start + cs) text.length
              omega
      by_cases hend : text.length ≤ (start + cs) ⊓ text.length
      · rw [if_pos hend]
        refine ⟨_, rfl, ?_⟩
        intro c hc
        by_cases hnil : pyStrip (pySlice text start ((start + cs) ⊓ text.length)) = []
        · rw [if_pos hnil] at hc
          simp at hc
        · rw [if_neg hnil] at hc
          simp at hc
          rw [hc]
          exact hchunk
      · rw [if_neg hend]
        have hemin : (start + cs) ⊓ text.length = start + cs := by
          rcases Nat.le_total (start + cs) text.length with hle | hle
          · exact min_eq_left hle
          · have := min_eq_right hle
            omega
        rw [hemin] at hchunk ⊢
        have hs1 : ¬ (start + cs - co ≤ start + cs - cs) := by omega
        rw [if_neg hs1]
        obtain ⟨rest, hrest, hmem⟩ := ih (start + cs - co) (by omega)
        rw [hrest]
        refine ⟨_, rfl, ?_⟩
        intro c hc
        by_cases hnil : pyStrip (pySlice text start (start + cs)) = []
        · rw [if_pos hnil] at hc
          exact hmem c hc
        · rw [if_neg hnil] at hc
          rcases List.mem_cons.mp hc with hceq | hcr
          · rw [hceq]; exact hchunk
          · exact hmem c hcr
    · rw [if_neg hs]
      exact ⟨[], rfl, by simp⟩

lemma mem_of_mem_enum {α : Type} {l : List α} {i : Nat} {c : α}
    (h : (i, c) ∈ l.enum) : c ∈ l := by
  rw [List.mem_enum_iff_getElem?] at h
  exact List.getElem?_mem h

lemma dropWhile_replicate_A (k : Nat) :
    (List.replicate k 'A').dropWhile pyIsSpace = List.replicate k 'A' := by
  cases k with
  | zero => rfl
  | succ n => simp [List.replicate_succ, List.dropWhile_cons, pyIsSpace]

lemma pyStrip_replicate_A (k : Nat) :
    pyStrip (List.replicate k 'A') = List.replicate k 'A' := by
  unfold pyStrip
  rw [dropWhile_replicate_A, List.reverse_replicate, dropWhile_replicate_A,
    List.reverse_replicate]

lemma collapseSpacesAux_replicate_A (k : Nat) (b : Bool) :
    collapseSpacesAux (List.replicate k 'A') b = List.replicate k 'A' := by
  induction k generalizing b with
  | zero => rfl
  | succ n ih => simp [List.replicate_succ, collapseSpacesAux, ih]

lemma collapseNewlinesAux_replicate_A (k : Nat) :
    collapseNewlinesAux (List.replicate k 'A') 0 = List.replicate k 'A' := by
  induction k with
  | zero => rfl
  | succ n ih => simp [List.replicate_succ, collapseNewlinesAux, ih]

lemma prepareText_replicate_A (k : Nat) :
    prepareText (List.replicate k 'A') = List.replicate k 'A' := by
  unfold prepareText collapseNewlines collapseSpaces
  rw [collapseSpacesAux_replicate_A, collapseNewlinesAux_replicate_A,
    pyStrip_replicate_A]

lemma pySlice_replicate_A (n s e : Nat) :
    pySlice (List.replicate n 'A') s e =
      List.replicate (min (e - s) (n - s)) 'A' := by
  unfold pySlice
  rw [List.drop_replicate, List.take_replicate]

/-- Third iteration of the window loop on `"A" * 2500`:
window `[1600, 2500)`, then the loop breaks. -/
lemma go_1600 (fuel : Nat) :
    createChunksGo 1000 200 (List.replicate 2500 'A') (fuel + 1) 1600 =
      some [List.replicate 900 'A'] := by
  rw [createChunksGo.eq_2]
  rw [List.length_replicate]
  rw [if_pos (by norm_num : (1600:Nat) < 2500)]
  have hmin : (1600 + 1000) ⊓ 2500 = 2500 := by norm_num
  rw [hmin]
  simp only [pySlice_replicate_A, pyStrip_replicate_A]
  norm_num

/-- Second iteration: window `[800, 1800)`, next start `1600`. -/
lemma go_800 (fuel : Nat) :
    createChunksGo 1000 200 (List.replicate 2500 'A') (fuel + 2) 800 =
      some [List.replicate 1000 'A', List.replicate 900 'A'] := by
  show createChunksGo 1000 200 (List.replicate 2500 'A') ((fuel + 1) + 1) 800 = _
  rw [createChunksGo.eq_2]
  rw [List.length_replicate]
  rw [if_pos (by norm_num : (800:Nat) < 2500)]
  have hmin : (800 + 1000) ⊓ 2500 = 1800 := by norm_num
  rw [hmin]
  simp only [pySlice_replicate_A, pyStrip_replicate_A]
  norm_num
  rw [go_1600 fuel]

/-- First iteration: window `[0, 1000)`, next start `800`. -/
lemma go_0 (fuel : Nat) :
    createChunksGo 1000 200 (List.replicate 2500 'A') (fuel + 3) 0 =
      some [List.replicate 1000 'A', List.replicate 1000 'A',
            List.replicate 900 'A'] := by
  show createChunksGo 1000 200 (List.replicate 2500 'A') ((fuel + 2) + 1) 0 = _
  rw [createChunksGo.eq_2]
  rw [List.length_replicate]
  rw [if_pos (by norm_num : (0:Nat) < 2500)]
  have hmin : (0 + 1000) ⊓ 2500 = 1000 := by norm_num
  rw [hmin]
  simp only [pySlice_replicate_A, pyStrip_replicate_A]
  norm_num
  rw [go_800 fuel]

/-- The full value of `split("A" * 2500, chunk_size=1000, chunk_overlap=200)`. -/
lemma splitA2500 :
    splitText 1000 200 (List.replicate 2500 'A') "doc.txt" =
      some [⟨List.replicate 1000 'A', 0, "doc.txt", 1000⟩,
            ⟨List.replicate 1000 'A', 1, "doc.txt", 1000⟩,
            ⟨List.replicate 900 'A', 2, "doc.txt", 900⟩] := by
  unfold splitText
  rw [pyStrip_replicate_A]
  rw [if_neg (by simp [List.replicate_eq_nil_iff] : ¬ List.replicate 2500 'A' = [])]
  unfold createChunks
  rw [prepareText_replicate_A]
  rw [List.length_replicate]
  rw [if_neg (by norm_num : ¬ (2500:Nat) ≤ 1000)]
  have h2501 : (2500 : Nat) + 1 = 2498 + 3 := by norm_num
  rw [h2501, go_0]
  show some (List.map
      (fun p => Chunk.mk p.2 p.1 "doc.txt" p.2.length)
      ([List.replicate 1000 'A', List.replicate 1000 'A',
        List.replicate 900 'A']).enum) = _
  rw [show ([List.replicate 1000 'A', List.replicate 1000 'A',
             List.replicate 900 'A']).enum =
      [(0, List.replicate 1000 'A'), (1, List.replicate 1000 'A'),
       (2, List.replicate 900 'A')] from rfl]
  simp only [List.map_cons, List.map_nil, List.length_replicate]

/-- A well-formed search result yields one source entry per document. -/
lemma mkSources_length (sr : SearchResults) (h : sr.wf) :
    (mkSources sr).length = sr.documents.length := by
  obtain ⟨-, hm, hd⟩ := h
  unfold mkSources
  rw [List.length_map, List.length_zip, List.length_zip, hm, hd]
  simp

/-- When every attempt fails, the retry loop returns `none` after
sleeping `2 ^ attempt` between consecutive attempts (no sleep follows
the last attempt). -/
lemma embedAttempts_all_fail (o : Nat → Option Emb) :
    ∀ r a, (∀ i, i < r → o (a + i) = none) →
      embedAttempts o a r =
        (none, (List.range (r - 1)).map fun i => 2 ^ (a + i)) := by
  intro r
  induction r with
  | zero => intro a _; rfl
  | succ r ih =>
    intro a hfail
    rw [embedAttempts.eq_2]
    have h0 : o a = none := by
      have := hfail 0 (by omega)
      simpa using this
    rw [h0]
    by_cases hr : 0 < r
    · rw [if_pos hr]
      have hrec := ih (a + 1) (fun i hi => by
        have := hfail (i + 1) (by omega)
        rw [show a + (i + 1) = a + 1 + i by omega] at this
        exact this)
      rw [hrec]
      dsimp only
      congr 1
      cases r with
      | zero => omega
      | succ r0 =>
        rw [show r0 + 1 + 1 - 1 = r0 + 1 by omega,
          show r0 + 1 - 1 = r0 by omega]
        rw [List.range_succ_eq_map]
        simp only [List.map_cons, List.map_map]
        congr 1
        apply List.map_congr_left
        intro i _
        simp [Function.comp]
        ring_nf
    · rw [if_neg hr]
      have : r = 0 := by omega
      subst this
      rfl

/-- When attempt `k` is the first to succeed, the retry loop returns
its vector after sleeping `2 ^ i` for each failed attempt `i < k`. -/
lemma embedAttempts_succeeds (o : Nat → Option Emb) :
    ∀ k a r v, k < r → (∀ i, i < k → o (a + i) = none) → o (a + k) = some v →
      embedAttempts o a r =
        (some v, (List.range k).map fun i => 2 ^ (a + i)) := by
  intro k
  induction k with
  | zero =>
    intro a r v hr hfail hsucc
    cases r with
    | zero => omega
    | succ r0 =>
      rw [embedAttempts.eq_2]
      simp only [Nat.add_zero] at hsucc
      rw [hsucc]
      rfl
  | succ k ih =>
    intro a r v hr hfail hsucc
    cases r with
    | zero => omega
    | succ r0 =>
      rw [embedAttempts.eq_2]
      have h0 : o a = none := by
        have := hfail 0 (by omega)
        simpa using this
      rw [h0]
      rw [if_pos (by omega : 0 < r0)]
      have hrec := ih (a + 1) r0 v (by omega)
        (fun i hi => by
          have := hfail (i + 1) (by omega)
          rw [show a + (i + 1) = a + 1 + i by omega] at this
          exact this)
        (by rw [show a + 1 + k = a + (k + 1) by omega]; exact hsucc)
      rw [hrec]
      dsimp only
      congr 1
      rw [List.range_succ_eq_map]
      simp only [List.map_cons, List.map_map]
      congr 1
      apply List.map_congr_left
      intro i _
      simp [Function.comp]
      ring_nf

/-- Content-token events are never recognised as the metadata event. -/
lemma filter_isMeta_tokens (l : List String) :
    (l.map StreamEvent.token).filter StreamEvent.isMeta = [] := by
  induction l with
  | nil => rfl
  | cons a l ih => simp [List.filter, StreamEvent.isMeta, ih]

/-! ## Claims -/

/-- Claim C1: for every non-empty query that reaches generation in
streaming mode, the orchestrator produces a finite sequence of text
token events, followed (after the final content token) by exactly one
metadata event carrying the matched sources, followed by the
end-of-stream marker.  (The streaming variant is modelled from the
spec, as its implementation is absent from the repository sources.) -/
theorem claim_C1 (embed : String → Option Emb)
    (searchO : Emb → Nat → SearchResults)
    (genStream : String → List String → List String)
    (d : Nat) (q : String) (tk : Option Nat) (qe : Emb)
    (hq : pyBlank q = false)
    (hemb : embed q = some qe) (hqe : qe ≠ [])
    (hcnt : (searchO qe (resolveTopK tk d)).count ≠ 0) :
    ∃ evs, retrieve_and_generate_stream embed searchO genStream d q tk = some evs ∧
      evs = ((genStream q (searchO qe (resolveTopK tk d)).documents).map
              StreamEvent.token)
            ++ [StreamEvent.sourcesEvent (mkSources (searchO qe (resolveTopK tk d))),
                StreamEvent.done] ∧
      evs.getLast? = some StreamEvent.done ∧
      evs.dropLast.getLast? =
        some (StreamEvent.sourcesEvent (mkSources (searchO qe (resolveTopK tk d)))) ∧
      (∀ e ∈ evs.dropLast.dropLast, ∃ t, e = StreamEvent.token t) ∧
      (evs.filter StreamEvent.isMeta).length = 1 := by
  have hstream : retrieve_and_generate_stream embed searchO genStream d q tk =
      some (((genStream q (searchO qe (resolveTopK tk d)).documents).map
              StreamEvent.token)
            ++ [StreamEvent.sourcesEvent (mkSources (searchO qe (resolveTopK tk d))),
                StreamEvent.done]) := by
    unfold retrieve_and_generate_stream
    simp only [hq, Bool.false_eq_true, if_false, hemb, hqe, hcnt, if_true]
  set L := (genStream q (searchO qe (resolveTopK tk d)).documents).map
    StreamEvent.token with hL
  set A := StreamEvent.sourcesEvent (mkSources (searchO qe (resolveTopK tk d)))
    with hA
  have hsplit : L ++ [A, StreamEvent.done] = (L ++ [A]) ++ [StreamEvent.done] := by
    simp
  refine ⟨_, hstream, rfl, ?_, ?_, ?_, ?_⟩
  · rw [hsplit, List.getLast?_concat]
  · rw [hsplit, List.dropLast_concat, List.getLast?_concat]
  · rw [hsplit, List.dropLast_concat, List.dropLast_concat]
    intro e he
    rw [hL] at he
    obtain ⟨t, _, ht⟩ := List.mem_map.mp he
    exact ⟨t, ht.symm⟩
  · rw [List.filter_append, filter_isMeta_tokens]
    rfl

/-- Witness for C1 at a concrete query and concrete collaborators. -/
theorem claim_C1_witness :
    ∃ evs, retrieve_and_generate_stream embC searchC tokensC 5 "hobbies" none =
        some evs ∧
      evs = ((tokensC "hobbies" (searchC [1] (resolveTopK none 5)).documents).map
              StreamEvent.token)
            ++ [StreamEvent.sourcesEvent (mkSources (searchC [1] (resolveTopK none 5))),
                StreamEvent.done] ∧
      evs.getLast? = some StreamEvent.done ∧
      evs.dropLast.getLast? =
        some (StreamEvent.sourcesEvent (mkSources (searchC [1] (resolveTopK none 5)))) ∧
      (∀ e ∈ evs.dropLast.dropLast, ∃ t, e = StreamEvent.token t) ∧
      (evs.filter StreamEvent.isMeta).length = 1 :=
  claim_C1 embC searchC tokensC 5 "hobbies" none [1] (by decide) rfl
    (by decide) (by decide)

/-- Claim C2 (corrected): splitting `"A" * 2500` with `chunk_size=1000`
and `chunk_overlap=200` yields exactly 3 chunks, of lengths 1000, 1000,
900 (not 700), with `chunk_index` 0, 1, 2, whose windows are
`[0,1000)`, `[800,1800)`, `[1600,2500)`. -/
theorem claim_C2 :
    splitText 1000 200 (List.replicate 2500 'A') "doc.txt" =
      some [⟨List.replicate 1000 'A', 0, "doc.txt", 1000⟩,
            ⟨List.replicate 1000 'A', 1, "doc.txt", 1000⟩,
            ⟨List.replicate 900 'A', 2, "doc.txt", 900⟩] ∧
    pySlice (List.replicate 2500 'A') 0 1000 = List.replicate 1000 'A' ∧
    pySlice (List.replicate 2500 'A') 800 1800 = List.replicate 1000 'A' ∧
    pySlice (List.replicate 2500 'A') 1600 2500 = List.replicate 900 'A' := by
  refine ⟨splitA2500, ?_, ?_, ?_⟩ <;> (rw [pySlice_replicate_A]; norm_num)

/-- Counterexample to C2 as stated: the chunk lengths are not
`[1000, 1000, 700]` (the third chunk, window `[1600, 2500)`, has
length 900). -/
theorem claim_C2_counterexample :
    ¬ ((splitText 1000 200 (List.replicate 2500 'A') "doc.txt").map
        (List.map Chunk.chunk_size) = some [1000, 1000, 700]) := by
  rw [splitA2500]
  show ¬ (some [(1000 : Nat), 1000, 900] = some [1000, 1000, 700])
  decide

/-- Claim C3 (corrected): a document-mode embed call is attempted up to
3 times with `2 ^ attempt` waits between consecutive attempts and only
fails (returning `None` to the caller) after exhausting all 3 attempts,
but a query-mode embed call makes exactly one attempt and reports the
first failure immediately. -/
theorem claim_C3 :
    (∀ (o : Nat → Option Emb) (text : String), pyBlank text = false →
       (∀ i, i < 3 → o i = none) →
       generate_embedding o text 3 = (none, [1, 2])) ∧
    (∀ (o : Nat → Option Emb) (text : String) (k : Nat) (v : Emb),
       pyBlank text = false → k < 3 → (∀ i, i < k → o i = none) →
       o k = some v →
       generate_embedding o text 3 =
         (some v, (List.range k).map fun i => 2 ^ i)) ∧
    (∀ (o : Nat → Option Emb) (q : String), pyBlank q = false →
       generate_query_embedding o q = o 0) := by
  refine ⟨?_, ?_, ?_⟩
  · intro o text hb hfail
    unfold generate_embedding
    simp only [hb, Bool.false_eq_true, if_false]
    rw [embedAttempts_all_fail o 3 0 (fun i hi => by simpa using hfail i hi)]
    norm_num [List.range_succ]
  · intro o text k v hb hk hfail hsucc
    unfold generate_embedding
    simp only [hb, Bool.false_eq_true, if_false]
    rw [embedAttempts_succeeds o k 0 3 v hk
      (fun i hi => by simpa using hfail i hi) (by simpa using hsucc)]
    simp
  · intro o q hb
    unfold generate_query_embedding
    simp only [hb, Bool.false_eq_true, if_false]

/-- Witness for C3 at concrete oracles. -/
theorem claim_C3_witness :
    generate_embedding (fun _ => none) "hi" 3 = (none, [1, 2]) ∧
    generate_embedding oSucceedThird "hi" 3 = (some [1], [1, 2]) ∧
    generate_query_embedding (fun _ => some [1]) "hi" = some [1] :=
  ⟨claim_C3.1 (fun _ => none) "hi" (by decide) (fun i _ => rfl),
   by
    rw [claim_C3.2.1 oSucceedThird "hi" 2 [1] (by decide) (by decide)
      (fun i hi => by interval_cases i <;> rfl) rfl]
    norm_num [List.range_succ],
   claim_C3.2.2 (fun _ => some [1]) "hi" (by decide)⟩

/-- Counterexample to C3 as stated: with an external model that raises
on attempt 0 and would succeed on any later attempt, a query-mode call
fails outright while the 3-attempt document-mode policy succeeds, so
query-mode calls are not retried. -/
theorem claim_C3_counterexample :
    generate_query_embedding oFailFirst "hi" = none ∧
    (generate_embedding oFailFirst "hi" 3).1 = some [1] := by
  constructor <;> decide

/-- Claim C4: when embedding and search succeed with at least one match
but generation fails, the result has `success = false` with the
generation-failure error, yet still carries the sources and
`chunks_used` computed from the search results. -/
theorem claim_C4 (embed : String → Option Emb)
    (searchO : Emb → Nat → SearchResults)
    (gen : String → List String → Option String)
    (d : Nat) (q : String) (tk : Option Nat) (qe : Emb)
    (hq : pyBlank q = false)
    (hemb : embed q = some qe) (hqe : qe ≠ [])
    (hcnt : (searchO qe (resolveTopK tk d)).count ≠ 0)
    (hgen : answerFalsy (gen q (searchO qe (resolveTopK tk d)).documents) = true) :
    retrieve_and_generate embed searchO gen d q tk =
      { success := false, answer := none
        error := some "Failed to generate response"
        sources := mkSources (searchO qe (resolveTopK tk d))
        chunks_used := (searchO qe (resolveTopK tk d)).documents.length } := by
  unfold retrieve_and_generate
  simp only [hq, Bool.false_eq_true, if_false, hemb, hqe, hcnt, hgen, if_true]

/-- Witness for C4 at concrete collaborators. -/
theorem claim_C4_witness :
    retrieve_and_generate embC searchC genNoneC 5 "hobbies" none =
      { success := false, answer := none
        error := some "Failed to generate response"
        sources := mkSources srC, chunks_used := 1 } :=
  claim_C4 embC searchC genNoneC 5 "hobbies" none [1] (by decide) rfl
    (by decide) (by decide) rfl

/-- Claim C5: a non-empty query whose embedding succeeds but whose
search returns zero matches yields `success = true` with the fixed
"no information" answer, empty sources and `chunks_used = 0`, for every
generation collaborator (so generation is not invoked and zero matches
is never an error). -/
theorem claim_C5 (embed : String → Option Emb)
    (searchO : Emb → Nat → SearchResults)
    (d : Nat) (q : String) (tk : Option Nat) (qe : Emb)
    (hq : pyBlank q = false)
    (hemb : embed q = some qe) (hqe : qe ≠ [])
    (hcnt : (searchO qe (resolveTopK tk d)).count = 0) :
    ∀ gen : String → List String → Option String,
      retrieve_and_generate embed searchO gen d q tk =
        { success := true, answer := some noInfoAnswer, error := none
          sources := [], chunks_used := 0 } := by
  intro gen
  unfold retrieve_and_generate
  simp only [hq, Bool.false_eq_true, if_false, hemb, hqe, hcnt, if_true]

/-- Witness for C5 at concrete collaborators with an empty index. -/
theorem claim_C5_witness :
    retrieve_and_generate embC searchEmptyC genOkC 5 "hobbies" none =
      { success := true, answer := some noInfoAnswer, error := none
        sources := [], chunks_used := 0 } :=
  claim_C5 embC searchEmptyC 5 "hobbies" none [1] (by decide) rfl
    (by decide) rfl genOkC

/-- Claim C6: for every text and every configuration with
`chunk_overlap < chunk_size`, `split` terminates (here: the fuelled
window loop completes within its fuel) and every returned chunk has
length at most `chunk_size`. -/
theorem claim_C6 (cs co : Nat) (hco : co < cs) (text : List Char)
    (sf : String) :
    ∃ chunks, splitText cs co text sf = some chunks ∧
      ∀ ch ∈ chunks, ch.chunk_size ≤ cs := by
  unfold splitText
  by_cases hb : pyStrip text = []
  · rw [if_pos hb]
    exact ⟨[], rfl, by simp⟩
  · rw [if_neg hb]
    unfold createChunks
    by_cases hlen : (prepareText text).length ≤ cs
    · rw [if_pos hlen]
      refine ⟨_, rfl, ?_⟩
      intro ch hch
      simp only [List.mem_map] at hch
      obtain ⟨⟨i, c⟩, hc_mem, hch_eq⟩ := hch
      have hc : c ∈ [prepareText text] := mem_of_mem_enum hc_mem
      simp only [List.mem_singleton] at hc
      subst hc
      rw [← hch_eq]
      exact hlen
    · rw [if_neg hlen]
      obtain ⟨l, hl, hmem⟩ :=
        createChunksGo_total cs co hco (prepareText text)
          ((prepareText text).length + 1) 0 (by omega)
      rw [hl]
      refine ⟨_, rfl, ?_⟩
      intro ch hch
      simp only [List.mem_map] at hch
      obtain ⟨⟨i, c⟩, hc_mem, hch_eq⟩ := hch
      rw [← hch_eq]
      exact hmem c (mem_of_mem_enum hc_mem)

/-- Witness for C6 at a concrete text and configuration. -/
theorem claim_C6_witness :
    2 < 5 ∧ ∃ chunks, splitText 5 2 ['h', 'i'] "f" = some chunks ∧
      ∀ ch ∈ chunks, ch.chunk_size ≤ 5 :=
  ⟨by decide, claim_C6 5 2 (by decide) ['h', 'i'] "f"⟩

/-- Claim C7: a per-request `top_k` that passes request validation
(`1 ≤ k ≤ 10`) is used for the similarity search exactly as supplied
(no clamping), and an absent value falls back to the orchestrator's
configured default: the pipeline only consults the search collaborator
at the resolved value. -/
theorem claim_C7 (k d : Nat) (hk : QueryRequest.validTopK (some k) = true) :
    resolveTopK (some k) d = k ∧
    resolveTopK none d = d ∧
    ∀ (embed : String → Option Emb) (searchO : Emb → Nat → SearchResults)
      (gen : String → List String → Option String) (q : String),
      retrieve_and_generate embed searchO gen d q (some k) =
        retrieve_and_generate embed (fun v _ => searchO v k) gen d q (some k) := by
  have hk1 : resolveTopK (some k) d = k := by
    unfold resolveTopK
    simp only [QueryRequest.validTopK, Bool.and_eq_true, decide_eq_true_eq] at hk
    have : k ≠ 0 := by omega
    simp [this]
  refine ⟨hk1, rfl, ?_⟩
  intro embed searchO gen q
  unfold retrieve_and_generate
  rw [hk1]

/-- Witness for C7 at `top_k = 3` against a configured default of 5. -/
theorem claim_C7_witness :
    resolveTopK (some 3) 5 = 3 ∧ resolveTopK none 5 = 5 :=
  ⟨(claim_C7 3 5 (by decide)).1, (claim_C7 3 5 (by decide)).2.1⟩

/-- Claim C8: constructing a splitter with
`chunk_overlap ≥ chunk_size` fails at construction time, constructing
one with `chunk_overlap < chunk_size` succeeds, and every successfully
constructed instance satisfies `chunk_overlap < chunk_size`. -/
theorem claim_C8 (cs co : Nat) :
    (co ≥ cs → mkTextSplitter cs co = none) ∧
    (co < cs → ∃ s, mkTextSplitter cs co = some s ∧
        s.chunk_size = cs ∧ s.chunk_overlap = co) ∧
    (∀ s, mkTextSplitter cs co = some s → s.chunk_overlap < s.chunk_size) := by
  refine ⟨?_, ?_, ?_⟩
  · intro h
    unfold mkTextSplitter
    rw [if_pos h]
  · intro h
    unfold mkTextSplitter
    rw [if_neg (by omega)]
    exact ⟨_, rfl, rfl, rfl⟩
  · intro s hs
    unfold mkTextSplitter at hs
    by_cases h : co ≥ cs
    · rw [if_pos h] at hs
      cases hs
    · rw [if_neg h] at hs
      cases hs
      simpa using by omega

/-- Witness for C8 at the default configuration and an invalid one. -/
theorem claim_C8_witness :
    mkTextSplitter 1000 1200 = none ∧
    ∃ s, mkTextSplitter 1000 200 = some s ∧
      s.chunk_size = 1000 ∧ s.chunk_overlap = 200 :=
  ⟨(claim_C8 1000 1200).1 (by omega), (claim_C8 1000 200).2.1 (by omega)⟩

/-- Claim C9: on every path of the blocking pipeline, the returned
result satisfies `chunks_used = length sources` (given the facade's
shape guarantee that search results are parallel lists). -/
theorem claim_C9 (embed : String → Option Emb)
    (searchO : Emb → Nat → SearchResults)
    (gen : String → List String → Option String)
    (d : Nat) (q : String) (tk : Option Nat)
    (hwf : ∀ v k, (searchO v k).wf) :
    (retrieve_and_generate embed searchO gen d q tk).chunks_used =
      (retrieve_and_generate embed searchO gen d q tk).sources.length := by
  unfold retrieve_and_generate
  by_cases hb : pyBlank q
  · simp [hb]
  · simp only [hb, Bool.false_eq_true, if_false]
    cases hemb : embed q with
    | none => simp
    | some qe =>
      by_cases hqe : qe = []
      · simp [hqe]
      · simp only [hqe, if_false]
        by_cases hcnt : (searchO qe (resolveTopK tk d)).count = 0
        · simp [hcnt]
        · simp only [hcnt, if_false]
          by_cases hans : answerFalsy (gen q (searchO qe (resolveTopK tk d)).documents) = true
          · simp only [hans, if_true]
            exact (mkSources_length _ (hwf qe (resolveTopK tk d))).symm
          · simp only [hans, if_false]
            exact (mkSources_length _ (hwf qe (resolveTopK tk d))).symm

/-- Witness for C9 at concrete collaborators. -/
theorem claim_C9_witness :
    (retrieve_and_generate embC searchC genOkC 5 "hobbies" none).chunks_used =
      (retrieve_and_generate embC searchC genOkC 5 "hobbies" none).sources.length :=
  claim_C9 embC searchC genOkC 5 "hobbies" none (fun _ _ => ⟨rfl, rfl, rfl⟩)

/-- Claim C10: for every empty or whitespace-only input text, `split`
returns an empty chunk sequence, for every source file and every valid
configuration. -/
theorem claim_C10 (cs co : Nat) (_hcfg : co < cs) (text : List Char)
    (sf : String) (h : pyStrip text = []) :
    splitText cs co text sf = some [] := by
  unfold splitText
  rw [if_pos h]

/-- Witness for C10 at a whitespace-only text. -/
theorem claim_C10_witness :
    2 < 5 ∧ pyStrip [' ', '\t'] = [] ∧
      splitText 5 2 [' ', '\t'] "f" = some [] :=
  ⟨by decide, by decide, claim_C10 5 2 (by decide) [' ', '\t'] "f" (by decide)⟩

end Chatbot
